import Mathlib

/-!
# SAML identity-provider resource (`okta/resource_saml_idp.go`)

A shallow embedding of the four lifecycle functions of the SAML identity
provider resource (`buildSamlIdp`, `resourceSamlIdpRead`,
`resourceSamlIdpCreate`, `resourceSamlIdpUpdate`) and of the part of the
resource schema that declares defaults.

* `*schema.ResourceData` is a typed attribute store (`ResourceData`): one
  table per schema type, so that `d.Get(k).(string)` never fails, together
  with the identifier and the partial-state flag.  `d.Set(k, v)` takes a
  dynamically typed value (`Value`, Go's `interface{}`).
* Pointers to records that are mutated in place (`d`, `idp`) are explicit
  state passing.
* Every remote call is recorded in a log (`List Call`); the answer of the
  remote system is a function of the log so far and of the request.
* The helpers of the package that live in other files are the fields of
  `Env`; nothing is assumed about them except where a theorem says so.
-/

namespace Okta

/-! ## Values and the attribute store -/

/-- Go `error` values: the message. -/
abbrev Err := String

/-- The dynamically typed argument of `d.Set` (Go `interface{}`): the three
shapes of value the resource schema knows. -/
inductive Value
  | str (s : String)
  | bool (b : Bool)
  | set (s : Finset String)
  deriving DecidableEq

/-- The state behind `*schema.ResourceData`: identifier, one attribute table
per schema type (`none` = the attribute was never given a value) and the
partial-state flag toggled by `d.Partial`. -/
structure ResourceData where
  id : String
  strs : String → Option String
  bools : String → Option Bool
  sets : String → Option (Finset String)
  partialMode : Bool

namespace ResourceData

/-- The method `d.Id()`. -/
def Id (d : ResourceData) : String := d.id

/-- The method `d.SetId(v)`. -/
def SetId (d : ResourceData) (v : String) : ResourceData := { d with id := v }

/-- The method `d.Partial(flag)`. -/
def setPartialMode (d : ResourceData) (flag : Bool) : ResourceData :=
  { d with partialMode := flag }

/-- The method `d.Set(k, v)`: the value is stored in the table of its own type; the
error result of `d.Set` is ignored at every call site of the resource. -/
def Set (d : ResourceData) (k : String) (v : Value) : ResourceData :=
  match v with
  | .str s => { d with strs := fun j => if j = k then some s else d.strs j }
  | .bool b => { d with bools := fun j => if j = k then some b else d.bools j }
  | .set s => { d with sets := fun j => if j = k then some s else d.sets j }

/-- Everything stored under one attribute name. -/
def attr (d : ResourceData) (k : String) :
    Option String × Option Bool × Option (Finset String) :=
  (d.strs k, d.bools k, d.sets k)

/-- The attribute `k` currently stores the value `v`. -/
def holds (d : ResourceData) (k : String) (v : Value) : Prop :=
  match v with
  | .str s => d.strs k = some s
  | .bool b => d.bools k = some b
  | .set s => d.sets k = some s

instance (d : ResourceData) (k : String) (v : Value) : Decidable (d.holds k v) := by
  cases v <;> (unfold holds; infer_instance)

end ResourceData

/-! ## The Domain Model

The type declarations are not in `resource_saml_idp.go`; the shape below is
the composite literal of `buildSamlIdp` and the field accesses of
`resourceSamlIdpRead`.  The sub-objects Read dereferences without a nil check
are plain fields (§3: the root "owns exactly one Policy and one Protocol
sub-object"); only `AccountLink`, which Read compares with `nil`, is optional. -/

/-- Modelled from the spec: the declaration of `AccountLink` is in another
file.  §3: "AccountLink: action enum, optional group-inclusion filter"; both
fields are handed to `d.Set` as they are, hence `Value`. -/
structure AccountLink where
  Action : Value
  Filter : Value
  deriving DecidableEq

/-- Modelled from the spec: `Provisioning.Conditions` ("nested conditions for
deprovisioned/suspended lifecycle actions"). -/
structure IdpConditions where
  Deprovisioned : Value
  Suspended : Value
  deriving DecidableEq

/-- Modelled from the spec: `Provisioning.Groups` ("group-sync action"). -/
structure IdpGroups where
  Action : Value
  deriving DecidableEq

/-- Modelled from the spec: the provisioning sub-object built by
`NewIdpProvisioning` ("action enum; nested conditions ...; group-sync action;
profile-master flag"); the fields are handed to `d.Set` as they are. -/
structure IdpProvisioning where
  Action : Value
  Conditions : IdpConditions
  Groups : IdpGroups
  ProfileMaster : Value
  deriving DecidableEq

/-- The SDK type `okta.ApplicationCredentialsUsernameTemplate`. -/
structure ApplicationCredentialsUsernameTemplate where
  Template : String
  deriving DecidableEq

/-- The type `SAMLSubject`. -/
structure SAMLSubject where
  Filter : String
  Format : List String
  MatchType : String
  UserNameTemplate : ApplicationCredentialsUsernameTemplate
  deriving DecidableEq

/-- The type `SAMLPolicy`; §3: Policy "owns Provisioning, Subject, and an optional
AccountLink sub-object" (`AccountLink` is compared with `nil` in Read). -/
structure SAMLPolicy where
  AccountLink : Option AccountLink
  Provisioning : IdpProvisioning
  Subject : SAMLSubject
  deriving DecidableEq

/-- The type `ACSSSO`. -/
structure ACSSSO where
  Binding : String
  Type_ : String
  deriving DecidableEq

/-- The type `IDPSSO`. -/
structure IDPSSO where
  Binding : String
  Destination : String
  URL : String
  deriving DecidableEq

/-- The type `SAMLEndpoints`. -/
structure SAMLEndpoints where
  Acs : ACSSSO
  Sso : IDPSSO
  deriving DecidableEq

/-- The type `IDPTrust`. -/
structure IDPTrust where
  Issuer : String
  Audience : String
  Kid : String
  deriving DecidableEq

/-- The type `SAMLCredentials`. -/
structure SAMLCredentials where
  Trust : IDPTrust
  deriving DecidableEq

/-- The type `SAMLProtocol`; the signature settings `Algorithms` are a type `A` this
file knows nothing about. -/
structure SAMLProtocol (A : Type) where
  Algorithms : A
  Endpoints : SAMLEndpoints
  Type_ : String
  Credentials : SAMLCredentials
  deriving DecidableEq

/-- The type `SAMLIdentityProvider`, the root of the Domain Model.  `ID` and `Status`
are read by Create and Update after the remote call (`idp.ID`, `idp.Status`). -/
structure SAMLIdentityProvider (A : Type) where
  ID : String
  Name : String
  Type_ : String
  Status : String
  IssuerMode : String
  Policy : SAMLPolicy
  Protocol : SAMLProtocol A
  deriving DecidableEq

/-! ## Remote calls and the collaborators from other files -/

/-- One call to the remote system. -/
inductive Call (A : Type)
  | create (idp : SAMLIdentityProvider A)
  | update (id : String) (idp : SAMLIdentityProvider A)
  | fetch (id : String)
  | setStatus (id : String) (desired : String)
  deriving DecidableEq

/-- The functions and schema entries the resource uses that are defined in
other files of the package.  The remote system answers as a function of the
calls made so far; `createIdp` and `updateIdp` return the model as they leave
it behind the pointer they were given. -/
structure Env (A : Type) where
  -- defaults of the attributes declared by `buildIdpSchema`, `bindingSchema`
  -- and `issuerMode`
  absentDefault : String → Option String
  NewAccountLink : ResourceData → Option AccountLink
  NewIdpProvisioning : ResourceData → IdpProvisioning
  NewAlgorithms : ResourceData → A
  syncAlgo : ResourceData → A → ResourceData
  -- the element list of a `*schema.Set`, in the set's own order
  convertInterfaceToStringSet : Finset String → List String
  createIdp : List (Call A) → SAMLIdentityProvider A → Except Err (SAMLIdentityProvider A)
  updateIdp : List (Call A) → String → SAMLIdentityProvider A →
    Except Err (SAMLIdentityProvider A)
  fetchIdp : List (Call A) → String → Except Err (SAMLIdentityProvider A)
  -- the activate / deactivate endpoint
  changeStatus : List (Call A) → String → String → Option Err

/-- What a lifecycle function leaves behind: the resource data, the log of
remote calls and the returned error (`none` = `nil`). -/
structure Result (A : Type) where
  d : ResourceData
  log : List (Call A)
  err : Option Err

/-! ## The schema of `resourceSamlIdp` -/

/-- Modelled from the spec: the constant `postBindingAlias` is declared in
another file; §8 names the POST-binding constant "POST". -/
def postBindingAlias : String := "POST"

/-- The `Default:` of every string attribute declared in the schema map of
`resourceSamlIdp` (lines 19-79); attributes declared elsewhere
(`buildIdpSchema`, `bindingSchema`, `issuerMode`) take theirs from `absent`. -/
def resourceSamlIdpDefault (absent : String → Option String) (k : String) : Option String :=
  if k = "type" then none
  else if k = "acs_type" then some "INSTANCE"
  else if k = "acs_url" then none
  else if k = "sso_url" then none
  else if k = "sso_binding" then some postBindingAlias
  else if k = "sso_destination" then none
  else if k = "name_format" then some "urn:oasis:names:tc:SAML:1.1:nameid-format:unspecified"
  else if k = "subject_format" then none
  else if k = "subject_filter" then none
  else if k = "issuer" then none
  else if k = "audience" then none
  else if k = "kid" then none
  else absent k

namespace ResourceData

/-- Reading a string attribute under a table of defaults: the stored value,
else the default, else the zero value. -/
def getStr (dflt : String → Option String) (d : ResourceData) (k : String) : String :=
  match d.strs k with
  | some s => s
  | none => (dflt k).getD ""

/-- The read `d.Get(k).(string)` on a resource whose schema is that of
`resourceSamlIdp`. -/
def GetString {A : Type} (E : Env A) (d : ResourceData) (k : String) : String :=
  d.getStr (resourceSamlIdpDefault E.absentDefault) k

/-- The read `d.Get(k).(bool)`. -/
def GetBool (d : ResourceData) (k : String) : Bool := (d.bools k).getD false

/-- The read `d.Get(k)` of a set attribute. -/
def GetSet (d : ResourceData) (k : String) : Finset String := (d.sets k).getD ∅

end ResourceData

/-! ## Helpers modelled from the spec -/

/-- Modelled from the spec: `convertStringSetToInterface` is in another file;
§3: "Subject Format is a set: order is insignificant, duplicates collapse". -/
def convertStringSetToInterface (xs : List String) : Value := .set xs.toFinset

/-- Modelled from the spec: `setNonPrimitives` is in another file; §4.1: "For
the Subject Format set, performs a set-valued assignment".  Every entry of the
map is assigned with `d.Set`. -/
def setNonPrimitives (d : ResourceData) (m : List (String × Value)) :
    ResourceData × Option Err :=
  (m.foldl (fun acc kv => acc.Set kv.1 kv.2) d, none)

/-- Modelled from the spec: `setIdpStatus` (the Status Synchronizer) is in
another file; §4.2: "No-op if currentRemoteStatus equals desiredStatus.
Otherwise issues an activate or deactivate call against the remote resource
identified by id." -/
def setIdpStatus {A : Type} (E : Env A) (id status desiredStatus : String)
    (log : List (Call A)) : List (Call A) × Option Err :=
  if status = desiredStatus then (log, none)
  else (log ++ [Call.setStatus id desiredStatus], E.changeStatus log id desiredStatus)

/-! ## The resource functions -/

/-- The function `buildSamlIdp` (lines 148-188). -/
def buildSamlIdp {A : Type} (E : Env A) (d : ResourceData) : SAMLIdentityProvider A :=
  { ID := ""
    Name := d.GetString E "name"
    Type_ := "SAML2"
    Status := ""
    IssuerMode := d.GetString E "issuer_mode"
    Policy :=
      { AccountLink := E.NewAccountLink d
        Provisioning := E.NewIdpProvisioning d
        Subject :=
          { Filter := d.GetString E "subject_filter"
            Format := E.convertInterfaceToStringSet (d.GetSet "subject_format")
            MatchType := d.GetString E "subject_match_type"
            UserNameTemplate := { Template := d.GetString E "username_template" } } }
    Protocol :=
      { Algorithms := E.NewAlgorithms d
        Endpoints :=
          { Acs :=
              { Binding := d.GetString E "acs_binding"
                Type_ := d.GetString E "acs_type" }
            Sso :=
              { Binding := d.GetString E "sso_binding"
                Destination := d.GetString E "sso_destination"
                URL := d.GetString E "sso_url" } }
        Type_ := "SAML2"
        Credentials :=
          { Trust :=
              { Issuer := d.GetString E "issuer"
                Audience := d.GetString E "audience"
                Kid := d.GetString E "kid" } } } }

/-- The sync step of `resourceSamlIdpRead` (lines 103-128): everything the
function does with the fetched model. -/
def resourceSamlIdpReadSync {A : Type} (E : Env A) (d : ResourceData)
    (idp : SAMLIdentityProvider A) : ResourceData × Option Err :=
  let d := d.Set "name" (.str idp.Name)
  let d := d.Set "provisioning_action" idp.Policy.Provisioning.Action
  let d := d.Set "deprovisioned_action" idp.Policy.Provisioning.Conditions.Deprovisioned
  let d := d.Set "profile_master" idp.Policy.Provisioning.ProfileMaster
  let d := d.Set "suspended_action" idp.Policy.Provisioning.Conditions.Suspended
  let d := d.Set "groups_action" idp.Policy.Provisioning.Groups.Action
  let d := d.Set "subject_match_type" (.str idp.Policy.Subject.MatchType)
  let d := d.Set "subject_filter" (.str idp.Policy.Subject.Filter)
  let d := d.Set "username_template" (.str idp.Policy.Subject.UserNameTemplate.Template)
  let d := d.Set "issuer" (.str idp.Protocol.Credentials.Trust.Issuer)
  let d := d.Set "audience" (.str idp.Protocol.Credentials.Trust.Audience)
  let d := d.Set "kid" (.str idp.Protocol.Credentials.Trust.Kid)
  let d := E.syncAlgo d idp.Protocol.Algorithms
  let d := if idp.IssuerMode ≠ "" then d.Set "issuer_mode" (.str idp.IssuerMode) else d
  let d :=
    match idp.Policy.AccountLink with
    | some link =>
      (d.Set "account_link_action" link.Action).Set "account_link_group_include" link.Filter
    | none => d
  setNonPrimitives d
    [("subject_format", convertStringSetToInterface idp.Policy.Subject.Format)]

/-- The function `resourceSamlIdpRead` (lines 97-129). -/
def resourceSamlIdpRead {A : Type} (E : Env A) (d : ResourceData) (log : List (Call A)) :
    Result A :=
  match E.fetchIdp log d.Id with
  | .error err => ⟨d, log ++ [Call.fetch d.Id], some err⟩
  | .ok idp =>
    let r := resourceSamlIdpReadSync E d idp
    ⟨r.1, log ++ [Call.fetch d.Id], r.2⟩

/-- The function `resourceSamlIdpCreate` (lines 83-95). -/
def resourceSamlIdpCreate {A : Type} (E : Env A) (d : ResourceData) (log : List (Call A)) :
    Result A :=
  let idp := buildSamlIdp E d
  match E.createIdp log idp with
  | .error err => ⟨d, log ++ [Call.create idp], some err⟩
  | .ok created =>
    let log := log ++ [Call.create idp]
    let d := d.SetId created.ID
    match setIdpStatus E d.Id created.Status (d.GetString E "status") log with
    | (log, some err) => ⟨d, log, some err⟩
    | (log, none) => resourceSamlIdpRead E d log

/-- The function `resourceSamlIdpUpdate` (lines 131-146). -/
def resourceSamlIdpUpdate {A : Type} (E : Env A) (d : ResourceData) (log : List (Call A)) :
    Result A :=
  let idp := buildSamlIdp E d
  let d := d.setPartialMode true
  match E.updateIdp log d.Id idp with
  | .error err => ⟨d, log ++ [Call.update d.Id idp], some err⟩
  | .ok updated =>
    let log := log ++ [Call.update d.Id idp]
    let d := d.setPartialMode false
    match setIdpStatus E updated.ID updated.Status (d.GetString E "status") log with
    | (log, some err) => ⟨d, log, some err⟩
    | (log, none) => resourceSamlIdpRead E d log

/-! ## Vocabulary of the statements -/

/-- The status-change calls of a log, in order: identifier and requested
status. -/
def statusCalls {A : Type} : List (Call A) → List (String × String)
  | [] => []
  | Call.setStatus id desired :: rest => (id, desired) :: statusCalls rest
  | Call.create _ :: rest => statusCalls rest
  | Call.update _ _ :: rest => statusCalls rest
  | Call.fetch _ :: rest => statusCalls rest

/-- The strings a dynamically typed value carries. -/
def Value.strings : Value → List String
  | .str s => [s]
  | .bool _ => []
  | .set _ => []

/-- Every string-valued field of a Domain Model, the fields of the
sub-objects built by the helpers included (the signature settings, of
unknown type, apart). -/
def SAMLIdentityProvider.scalars {A : Type} (idp : SAMLIdentityProvider A) : List String :=
  [idp.ID, idp.Name, idp.Type_, idp.Status, idp.IssuerMode,
   idp.Policy.Subject.Filter, idp.Policy.Subject.MatchType,
   idp.Policy.Subject.UserNameTemplate.Template,
   idp.Protocol.Endpoints.Acs.Binding, idp.Protocol.Endpoints.Acs.Type_,
   idp.Protocol.Endpoints.Sso.Binding, idp.Protocol.Endpoints.Sso.Destination,
   idp.Protocol.Endpoints.Sso.URL, idp.Protocol.Type_,
   idp.Protocol.Credentials.Trust.Issuer, idp.Protocol.Credentials.Trust.Audience,
   idp.Protocol.Credentials.Trust.Kid]
  ++ idp.Policy.Subject.Format
  ++ idp.Policy.Provisioning.Action.strings
  ++ idp.Policy.Provisioning.Conditions.Deprovisioned.strings
  ++ idp.Policy.Provisioning.Conditions.Suspended.strings
  ++ idp.Policy.Provisioning.Groups.Action.strings
  ++ idp.Policy.Provisioning.ProfileMaster.strings
  ++ (match idp.Policy.AccountLink with
      | some link => link.Action.strings ++ link.Filter.strings
      | none => [])

/-- The attributes `resource_saml_idp.go` itself reads or writes, with the
status attribute: everything that is not a signature setting. -/
def samlAttributes : List String :=
  ["name", "status", "type", "issuer_mode",
   "provisioning_action", "deprovisioned_action", "profile_master", "suspended_action",
   "groups_action", "account_link_action", "account_link_group_include",
   "subject_match_type", "subject_filter", "subject_format", "username_template",
   "acs_binding", "acs_type", "acs_url", "sso_url", "sso_binding", "sso_destination",
   "name_format", "issuer", "audience", "kid"]

/-- The contract of `syncAlgo` (§4.1: "consumes the Algorithms sub-object,
writes zero or more scalar attributes"): it writes signature settings only,
so the identifier and the attributes of `samlAttributes` are left alone. -/
def Env.SyncAlgoScoped {A : Type} (E : Env A) : Prop :=
  ∀ d a, (E.syncAlgo d a).Id = d.Id ∧
    ∀ k, k ∈ samlAttributes → (E.syncAlgo d a).attr k = d.attr k

/-- The contract of `updateIdp` (§6: "update(id, object)→(object|error)"; §3:
the identifier, "once assigned ... is immutable for the resource's lifetime"):
a successful update leaves in the model the object the remote returned for
the identifier addressed, so the model's `ID` is that identifier.  Line 141
reads `idp.ID` after the call, as line 88 does after `createIdp`. -/
def Env.UpdateWritesBack {A : Type} (E : Env A) : Prop :=
  ∀ (log : List (Call A)) (id : String) (idp updated : SAMLIdentityProvider A),
    E.updateIdp log id idp = .ok updated → updated.ID = id

namespace ResourceData

/-- Two resource data that no `d.Id()` and no `d.Get` tells apart. -/
def Same {A : Type} (E : Env A) (d d' : ResourceData) : Prop :=
  d.Id = d'.Id ∧ (∀ k, d.GetString E k = d'.GetString E k) ∧
    (∀ k, d.GetBool k = d'.GetBool k) ∧ (∀ k, d.GetSet k = d'.GetSet k)

/-- The read `d.Get(k)` returns `v`. -/
def Gets {A : Type} (E : Env A) (d : ResourceData) (k : String) (v : Value) : Prop :=
  match v with
  | .str s => d.GetString E k = s
  | .bool b => d.GetBool k = b
  | .set s => d.GetSet k = s

end ResourceData

/-- What the round trip needs from the helpers defined in other files: they
see the resource data only through `d.Id()` and `d.Get`; the objects built by
`NewIdpProvisioning` and `NewAccountLink` carry, in the fields Read writes
back, what `d.Get` returns for the attribute written; `syncAlgo` applied to
the settings `NewAlgorithms` built changes nothing `d.Get` can see; and a
`*schema.Set` lists exactly its elements. -/
structure Env.SyncStable {A : Type} (E : Env A) : Prop where
  link_congr : ∀ d d' : ResourceData, d.Same E d' → E.NewAccountLink d = E.NewAccountLink d'
  prov_congr : ∀ d d' : ResourceData, d.Same E d' → E.NewIdpProvisioning d = E.NewIdpProvisioning d'
  algo_congr : ∀ d d' : ResourceData, d.Same E d' → E.NewAlgorithms d = E.NewAlgorithms d'
  sync_congr : ∀ (d d' : ResourceData) (a : A), d.Same E d' → (E.syncAlgo d a).Same E (E.syncAlgo d' a)
  prov_action : ∀ d : ResourceData, d.Gets E "provisioning_action" (E.NewIdpProvisioning d).Action
  prov_deprovisioned :
    ∀ d : ResourceData, d.Gets E "deprovisioned_action" (E.NewIdpProvisioning d).Conditions.Deprovisioned
  prov_master : ∀ d : ResourceData, d.Gets E "profile_master" (E.NewIdpProvisioning d).ProfileMaster
  prov_suspended :
    ∀ d : ResourceData, d.Gets E "suspended_action" (E.NewIdpProvisioning d).Conditions.Suspended
  prov_groups : ∀ d : ResourceData, d.Gets E "groups_action" (E.NewIdpProvisioning d).Groups.Action
  link_action : ∀ (d : ResourceData) (link : AccountLink), E.NewAccountLink d = some link →
    d.Gets E "account_link_action" link.Action
  link_filter : ∀ (d : ResourceData) (link : AccountLink), E.NewAccountLink d = some link →
    d.Gets E "account_link_group_include" link.Filter
  algo_stable : ∀ d : ResourceData, (E.syncAlgo d (E.NewAlgorithms d)).Same E d
  set_elems : ∀ s, (E.convertInterfaceToStringSet s).toFinset = s

/-- Lines 103-114 of `resourceSamlIdpRead`: the twelve unconditional
assignments, as a block (a name for the first part of
`resourceSamlIdpReadSync`). -/
def readScalars {A : Type} (d : ResourceData) (idp : SAMLIdentityProvider A) : ResourceData :=
  ((((((((((((d.Set "name" (.str idp.Name)).Set
    "provisioning_action" idp.Policy.Provisioning.Action).Set
    "deprovisioned_action" idp.Policy.Provisioning.Conditions.Deprovisioned).Set
    "profile_master" idp.Policy.Provisioning.ProfileMaster).Set
    "suspended_action" idp.Policy.Provisioning.Conditions.Suspended).Set
    "groups_action" idp.Policy.Provisioning.Groups.Action).Set
    "subject_match_type" (.str idp.Policy.Subject.MatchType)).Set
    "subject_filter" (.str idp.Policy.Subject.Filter)).Set
    "username_template" (.str idp.Policy.Subject.UserNameTemplate.Template)).Set
    "issuer" (.str idp.Protocol.Credentials.Trust.Issuer)).Set
    "audience" (.str idp.Protocol.Credentials.Trust.Audience)).Set
    "kid" (.str idp.Protocol.Credentials.Trust.Kid))

/-- Lines 117-128 of `resourceSamlIdpRead`: the two guarded assignments and
the assignment of the Subject Format set, as a block (a name for the last part
of `resourceSamlIdpReadSync`). -/
def readGuarded {A : Type} (d : ResourceData) (idp : SAMLIdentityProvider A) :
    ResourceData × Option Err :=
  let d := if idp.IssuerMode ≠ "" then d.Set "issuer_mode" (.str idp.IssuerMode) else d
  let d :=
    match idp.Policy.AccountLink with
    | some link =>
      (d.Set "account_link_action" link.Action).Set "account_link_group_include" link.Filter
    | none => d
  setNonPrimitives d
    [("subject_format", convertStringSetToInterface idp.Policy.Subject.Format)]

/-! ## A concrete instance

A remote system and helpers on which the statements can be evaluated: the
remote assigns the identifier `0oa1b2c3` and the status `ACTIVE` on create
(the scenario of §8), answers an update with the submitted model under the
identifier addressed, and answers a fetch with a fixed model. -/

/-- A resource data with no attribute set and no identifier. -/
def emptyData : ResourceData :=
  { id := "", strs := fun _ => none, bools := fun _ => none, sets := fun _ => none,
    partialMode := false }

/-- The configuration of the §8 scenario: the five required attributes and
nothing else. -/
def scenarioData : ResourceData :=
  ((((emptyData.Set "acs_url" (.str "https://sp.example.com/acs")).Set
    "sso_url" (.str "https://idp.example.com/sso")).Set
    "issuer" (.str "urn:example:idp")).Set
    "audience" (.str "urn:example:sp")).Set "kid" (.str "key-1")

/-- The scenario configuration with a name, an issuer mode, an account-link
action and two subject formats. -/
def richData : ResourceData :=
  ((((scenarioData.Set "name" (.str "corp-idp")).Set
    "issuer_mode" (.str "ORG_URL")).Set
    "account_link_action" (.str "AUTO")).Set
    "subject_format"
      (.set {"urn:oasis:names:tc:SAML:1.1:nameid-format:emailAddress",
        "urn:oasis:names:tc:SAML:1.1:nameid-format:unspecified"}))

/-- A string attribute of the concrete instance: no default outside the
schema map of `resourceSamlIdp`. -/
def sampleGet (d : ResourceData) (k : String) : String :=
  d.getStr (resourceSamlIdpDefault fun _ => none) k

/-- The model the concrete remote system holds. -/
def remoteIdp : SAMLIdentityProvider String :=
  { ID := "0oa1b2c3"
    Name := "corp-idp"
    Type_ := "SAML2"
    Status := "ACTIVE"
    IssuerMode := ""
    Policy :=
      { AccountLink := none
        Provisioning :=
          { Action := .str "AUTO"
            Conditions := { Deprovisioned := .str "NONE", Suspended := .str "NONE" }
            Groups := { Action := .str "NONE" }
            ProfileMaster := .bool false }
        Subject :=
          { Filter := ""
            Format := []
            MatchType := "USERNAME"
            UserNameTemplate := { Template := "idpuser.subjectNameId" } } }
    Protocol :=
      { Algorithms := "SHA-256"
        Endpoints :=
          { Acs := { Binding := "HTTP-POST", Type_ := "INSTANCE" }
            Sso :=
              { Binding := "HTTP-POST"
                Destination := "https://remote.example.com/sso"
                URL := "https://remote.example.com/sso" } }
        Type_ := "SAML2"
        Credentials :=
          { Trust :=
              { Issuer := "urn:example:idp"
                Audience := "urn:example:sp"
                Kid := "key-1" } } } }

/-- A remote model with a custom issuer mode and an AccountLink sub-object. -/
def linkedIdp : SAMLIdentityProvider String :=
  { remoteIdp with
    IssuerMode := "CUSTOM_URL"
    Policy :=
      { remoteIdp.Policy with
        AccountLink := some { Action := .str "AUTO", Filter := .set {"00g1emaKYZTWRYYRRTSK"} } } }

/-- The concrete instance: `fetched` is what a fetch returns, `statusErr`
what the status endpoint answers. -/
def sampleEnv (fetched : SAMLIdentityProvider String) (statusErr : Option Err) : Env String :=
  { absentDefault := fun _ => none
    NewAccountLink := fun d =>
      if sampleGet d "account_link_action" = "" then none
      else some
        { Action := .str (sampleGet d "account_link_action")
          Filter := .set (d.GetSet "account_link_group_include") }
    NewIdpProvisioning := fun d =>
      { Action := .str (sampleGet d "provisioning_action")
        Conditions :=
          { Deprovisioned := .str (sampleGet d "deprovisioned_action")
            Suspended := .str (sampleGet d "suspended_action") }
        Groups := { Action := .str (sampleGet d "groups_action") }
        ProfileMaster := .bool (d.GetBool "profile_master") }
    NewAlgorithms := fun d => sampleGet d "response_signature_algorithm"
    syncAlgo := fun d a => d.Set "response_signature_algorithm" (.str a)
    convertInterfaceToStringSet := fun s => s.sort (fun a b => a ≤ b)
    createIdp := fun _ idp => .ok { idp with ID := "0oa1b2c3", Status := "ACTIVE" }
    updateIdp := fun _ id idp => .ok { idp with ID := id, Status := "ACTIVE" }
    fetchIdp := fun _ _ => .ok fetched
    changeStatus := fun _ _ _ => statusErr }

/-- The concrete instance with a remote system that refuses every create and
every update. -/
def refusingEnv : Env String :=
  { sampleEnv remoteIdp none with
    createIdp := fun _ _ => .error "remote rejected"
    updateIdp := fun _ _ _ => .error "remote rejected" }

/-! ## Lemmas on the attribute store -/

namespace ResourceData

theorem attr_Set_of_ne (d : ResourceData) {j k : String} (v : Value) (h : j ≠ k) :
    (d.Set k v).attr j = d.attr j := by
  cases v <;> simp [Set, attr, h]

theorem strs_Set_of_ne (d : ResourceData) {j k : String} (v : Value) (h : j ≠ k) :
    (d.Set k v).strs j = d.strs j := by
  cases v <;> simp [Set, h]

theorem strs_Set_str (d : ResourceData) (k s : String) :
    (d.Set k (.str s)).strs k = some s := by
  simp [Set]

theorem holds_Set_self (d : ResourceData) (k : String) (v : Value) :
    (d.Set k v).holds k v := by
  cases v <;> simp [Set, holds]

theorem holds_Set_of_ne (d : ResourceData) {j k : String} (v w : Value) (h : j ≠ k)
    (hw : d.holds j w) : (d.Set k v).holds j w := by
  cases v <;> cases w <;> simpa [Set, holds, h] using hw

theorem GetString_of_strs {A : Type} (E : Env A) (d : ResourceData) {k s : String}
    (h : d.strs k = some s) : d.GetString E k = s := by
  simp [GetString, getStr, h]

theorem GetString_Set_of_ne {A : Type} (E : Env A) (d : ResourceData) {j k : String}
    (v : Value) (h : j ≠ k) : (d.Set k v).GetString E j = d.GetString E j := by
  simp [GetString, getStr, strs_Set_of_ne d v h]

theorem GetString_SetId {A : Type} (E : Env A) (d : ResourceData) (v k : String) :
    (d.SetId v).GetString E k = d.GetString E k := rfl

theorem GetString_setPartialMode {A : Type} (E : Env A) (d : ResourceData) (b : Bool)
    (k : String) : (d.setPartialMode b).GetString E k = d.GetString E k := rfl

end ResourceData

/-! ## The lifecycle functions, case by case -/

theorem Read_of_fetch_ok {A : Type} (E : Env A) (d : ResourceData) (log : List (Call A))
    {idp : SAMLIdentityProvider A} (h : E.fetchIdp log d.Id = .ok idp) :
    resourceSamlIdpRead E d log
      = ⟨(resourceSamlIdpReadSync E d idp).1, log ++ [Call.fetch d.Id],
          (resourceSamlIdpReadSync E d idp).2⟩ := by
  simp [resourceSamlIdpRead, h]

theorem Read_log {A : Type} (E : Env A) (d : ResourceData) (log : List (Call A)) :
    (resourceSamlIdpRead E d log).log = log ++ [Call.fetch d.Id] := by
  unfold resourceSamlIdpRead
  split <;> rfl

theorem Create_of_create_error {A : Type} (E : Env A) (d : ResourceData)
    (log : List (Call A)) {err : Err}
    (h : E.createIdp log (buildSamlIdp E d) = .error err) :
    resourceSamlIdpCreate E d log
      = ⟨d, log ++ [Call.create (buildSamlIdp E d)], some err⟩ := by
  simp [resourceSamlIdpCreate, h]

theorem Create_of_status_same {A : Type} (E : Env A) (d : ResourceData)
    (log : List (Call A)) {created : SAMLIdentityProvider A}
    (h : E.createIdp log (buildSamlIdp E d) = .ok created)
    (hs : created.Status = d.GetString E "status") :
    resourceSamlIdpCreate E d log
      = resourceSamlIdpRead E (d.SetId created.ID)
          (log ++ [Call.create (buildSamlIdp E d)]) := by
  simp [resourceSamlIdpCreate, h, setIdpStatus, hs, ResourceData.GetString_SetId]

theorem Create_of_status_ok {A : Type} (E : Env A) (d : ResourceData)
    (log : List (Call A)) {created : SAMLIdentityProvider A}
    (h : E.createIdp log (buildSamlIdp E d) = .ok created)
    (hs : created.Status ≠ d.GetString E "status")
    (hx : E.changeStatus (log ++ [Call.create (buildSamlIdp E d)]) created.ID
      (d.GetString E "status") = none) :
    resourceSamlIdpCreate E d log
      = resourceSamlIdpRead E (d.SetId created.ID)
          (log ++ [Call.create (buildSamlIdp E d),
            Call.setStatus created.ID (d.GetString E "status")]) := by
  have hx' : E.changeStatus (log ++ [Call.create (buildSamlIdp E d)]) (d.SetId created.ID).Id
      (d.GetString E "status") = none := hx
  simp [resourceSamlIdpCreate, h, setIdpStatus, hs, ResourceData.GetString_SetId, hx']
  rfl

theorem Create_of_status_error {A : Type} (E : Env A) (d : ResourceData)
    (log : List (Call A)) {created : SAMLIdentityProvider A} {err : Err}
    (h : E.createIdp log (buildSamlIdp E d) = .ok created)
    (hs : created.Status ≠ d.GetString E "status")
    (hx : E.changeStatus (log ++ [Call.create (buildSamlIdp E d)]) created.ID
      (d.GetString E "status") = some err) :
    resourceSamlIdpCreate E d log
      = ⟨d.SetId created.ID,
          log ++ [Call.create (buildSamlIdp E d),
            Call.setStatus created.ID (d.GetString E "status")], some err⟩ := by
  have hx' : E.changeStatus (log ++ [Call.create (buildSamlIdp E d)]) (d.SetId created.ID).Id
      (d.GetString E "status") = some err := hx
  simp [resourceSamlIdpCreate, h, setIdpStatus, hs, ResourceData.GetString_SetId, hx']
  rfl

theorem Update_of_update_error {A : Type} (E : Env A) (d : ResourceData)
    (log : List (Call A)) {err : Err}
    (h : E.updateIdp log d.Id (buildSamlIdp E d) = .error err) :
    resourceSamlIdpUpdate E d log
      = ⟨d.setPartialMode true, log ++ [Call.update d.Id (buildSamlIdp E d)], some err⟩ := by
  have h' : E.updateIdp log (d.setPartialMode true).Id (buildSamlIdp E d) = .error err := h
  simp [resourceSamlIdpUpdate, h']
  rfl

theorem Update_of_status_same {A : Type} (E : Env A) (d : ResourceData)
    (log : List (Call A)) {updated : SAMLIdentityProvider A}
    (h : E.updateIdp log d.Id (buildSamlIdp E d) = .ok updated)
    (hs : updated.Status = d.GetString E "status") :
    resourceSamlIdpUpdate E d log
      = resourceSamlIdpRead E ((d.setPartialMode true).setPartialMode false)
          (log ++ [Call.update d.Id (buildSamlIdp E d)]) := by
  have h' : E.updateIdp log (d.setPartialMode true).Id (buildSamlIdp E d) = .ok updated := h
  simp [resourceSamlIdpUpdate, h', setIdpStatus, hs, ResourceData.GetString_setPartialMode]
  rfl

theorem Update_of_status_ok {A : Type} (E : Env A) (d : ResourceData)
    (log : List (Call A)) {updated : SAMLIdentityProvider A}
    (h : E.updateIdp log d.Id (buildSamlIdp E d) = .ok updated)
    (hs : updated.Status ≠ d.GetString E "status")
    (hx : E.changeStatus (log ++ [Call.update d.Id (buildSamlIdp E d)]) updated.ID
      (d.GetString E "status") = none) :
    resourceSamlIdpUpdate E d log
      = resourceSamlIdpRead E ((d.setPartialMode true).setPartialMode false)
          (log ++ [Call.update d.Id (buildSamlIdp E d),
            Call.setStatus updated.ID (d.GetString E "status")]) := by
  have h' : E.updateIdp log (d.setPartialMode true).Id (buildSamlIdp E d) = .ok updated := h
  have hx' : E.changeStatus (log ++ [Call.update (d.setPartialMode true).Id
      (buildSamlIdp E d)]) updated.ID (d.GetString E "status") = none := hx
  simp [resourceSamlIdpUpdate, h', setIdpStatus, hs, ResourceData.GetString_setPartialMode, hx']
  rfl

theorem Update_of_status_error {A : Type} (E : Env A) (d : ResourceData)
    (log : List (Call A)) {updated : SAMLIdentityProvider A} {err : Err}
    (h : E.updateIdp log d.Id (buildSamlIdp E d) = .ok updated)
    (hs : updated.Status ≠ d.GetString E "status")
    (hx : E.changeStatus (log ++ [Call.update d.Id (buildSamlIdp E d)]) updated.ID
      (d.GetString E "status") = some err) :
    resourceSamlIdpUpdate E d log
      = ⟨(d.setPartialMode true).setPartialMode false,
          log ++ [Call.update d.Id (buildSamlIdp E d),
            Call.setStatus updated.ID (d.GetString E "status")], some err⟩ := by
  have h' : E.updateIdp log (d.setPartialMode true).Id (buildSamlIdp E d) = .ok updated := h
  have hx' : E.changeStatus (log ++ [Call.update (d.setPartialMode true).Id
      (buildSamlIdp E d)]) updated.ID (d.GetString E "status") = some err := hx
  simp [resourceSamlIdpUpdate, h', setIdpStatus, hs, ResourceData.GetString_setPartialMode, hx']
  rfl

/-! ## The model submitted by Create and Update -/

/-- C9: whatever the configuration (its declared status included), the model
`buildSamlIdp` produces has an empty `Status` and an empty `ID`, and its root
and Protocol type tags are the constant "SAML2"; this model is the object
handed to the remote create call and to the remote update call. -/
theorem buildSamlIdp_status_unset {A : Type} (E : Env A) (d : ResourceData)
    (log : List (Call A)) :
    (buildSamlIdp E d).Status = "" ∧ (buildSamlIdp E d).ID = "" ∧
    (buildSamlIdp E d).Type_ = "SAML2" ∧ (buildSamlIdp E d).Protocol.Type_ = "SAML2" ∧
    (∃ rest, (resourceSamlIdpCreate E d log).log
      = log ++ Call.create (buildSamlIdp E d) :: rest) ∧
    (∃ rest, (resourceSamlIdpUpdate E d log).log
      = log ++ Call.update d.Id (buildSamlIdp E d) :: rest) := by
  refine ⟨rfl, rfl, rfl, rfl, ?_, ?_⟩
  · cases hc : E.createIdp log (buildSamlIdp E d) with
    | error err => exact ⟨[], by rw [Create_of_create_error E d log hc]⟩
    | ok created =>
      by_cases hs : created.Status = d.GetString E "status"
      · exact ⟨[Call.fetch created.ID], by
          rw [Create_of_status_same E d log hc hs, Read_log]; simp [ResourceData.SetId,
            ResourceData.Id]⟩
      · cases hx : E.changeStatus (log ++ [Call.create (buildSamlIdp E d)]) created.ID
            (d.GetString E "status") with
        | none =>
          exact ⟨[Call.setStatus created.ID (d.GetString E "status"), Call.fetch created.ID],
            by rw [Create_of_status_ok E d log hc hs hx, Read_log]; simp [ResourceData.SetId,
              ResourceData.Id]⟩
        | some err =>
          exact ⟨[Call.setStatus created.ID (d.GetString E "status")], by
            rw [Create_of_status_error E d log hc hs hx]⟩
  · cases hc : E.updateIdp log d.Id (buildSamlIdp E d) with
    | error err => exact ⟨[], by rw [Update_of_update_error E d log hc]⟩
    | ok updated =>
      by_cases hs : updated.Status = d.GetString E "status"
      · exact ⟨[Call.fetch d.Id], by
          rw [Update_of_status_same E d log hc hs, Read_log]; simp [ResourceData.setPartialMode,
            ResourceData.Id]⟩
      · cases hx : E.changeStatus (log ++ [Call.update d.Id (buildSamlIdp E d)]) updated.ID
            (d.GetString E "status") with
        | none =>
          exact ⟨[Call.setStatus updated.ID (d.GetString E "status"), Call.fetch d.Id],
            by rw [Update_of_status_ok E d log hc hs hx, Read_log];
               simp [ResourceData.setPartialMode, ResourceData.Id]⟩
        | some err =>
          exact ⟨[Call.setStatus updated.ID (d.GetString E "status")], by
            rw [Update_of_status_error E d log hc hs hx]⟩

/-! ## Create -/

/-- C5: when the remote create call succeeds and the status the remote
assigned differs from the declared one, Create issues exactly one
status-change call, addressed to the identifier the create call returned and
asking for the declared status, right after the create call and before the
fetch of the final Read (which follows when the status call succeeds); when
the two statuses are equal Create issues the create call and the fetch, and no
status-change call. -/
theorem create_reconciles_status_once {A : Type} (E : Env A) (d : ResourceData)
    (log : List (Call A)) (created : SAMLIdentityProvider A)
    (hc : E.createIdp log (buildSamlIdp E d) = .ok created) :
    (created.Status ≠ d.GetString E "status" →
      (∃ tail, (tail = [] ∨ tail = [Call.fetch created.ID]) ∧
        (resourceSamlIdpCreate E d log).log
          = log ++ [Call.create (buildSamlIdp E d),
              Call.setStatus created.ID (d.GetString E "status")] ++ tail) ∧
      statusCalls (resourceSamlIdpCreate E d log).log
        = statusCalls log ++ [(created.ID, d.GetString E "status")]) ∧
    (created.Status = d.GetString E "status" →
      (resourceSamlIdpCreate E d log).log
        = log ++ [Call.create (buildSamlIdp E d), Call.fetch created.ID] ∧
      statusCalls (resourceSamlIdpCreate E d log).log = statusCalls log) := by
  have happ : ∀ xs ys : List (Call A), statusCalls (xs ++ ys) = statusCalls xs ++ statusCalls ys := by
    intro xs ys
    induction xs with
    | nil => rfl
    | cons x xs ih => cases x <;> simp [statusCalls, ih]
  constructor
  · intro hs
    cases hx : E.changeStatus (log ++ [Call.create (buildSamlIdp E d)]) created.ID
        (d.GetString E "status") with
    | none =>
      rw [Create_of_status_ok E d log hc hs hx, Read_log]
      refine ⟨⟨[Call.fetch created.ID], Or.inr rfl, ?_⟩, ?_⟩
      · simp [ResourceData.SetId, ResourceData.Id]
      · simp [happ, statusCalls]
    | some err =>
      rw [Create_of_status_error E d log hc hs hx]
      refine ⟨⟨[], Or.inl rfl, ?_⟩, ?_⟩
      · simp
      · simp [happ, statusCalls]
  · intro hs
    rw [Create_of_status_same E d log hc hs, Read_log]
    refine ⟨?_, ?_⟩
    · simp [ResourceData.SetId, ResourceData.Id]
    · simp [happ, statusCalls]

/-- C6: when the remote create call fails, Create returns that error as it is,
leaves the resource data as they were (an empty identifier stays empty) and
makes no other remote call: no status call, no fetch. -/
theorem create_failure_assigns_no_id {A : Type} (E : Env A) (d : ResourceData)
    (log : List (Call A)) (err : Err)
    (hc : E.createIdp log (buildSamlIdp E d) = .error err) :
    (resourceSamlIdpCreate E d log).err = some err ∧
    (resourceSamlIdpCreate E d log).d = d ∧
    (d.Id = "" → (resourceSamlIdpCreate E d log).d.Id = "") ∧
    (resourceSamlIdpCreate E d log).log = log ++ [Call.create (buildSamlIdp E d)] := by
  rw [Create_of_create_error E d log hc]
  exact ⟨rfl, rfl, fun h => h, rfl⟩

/-- C5, on the scenario of §8: the remote creates the provider as `0oa1b2c3`
with status `ACTIVE`, the configuration declares `INACTIVE`; the calls are the
create, one status change for `0oa1b2c3`, then the fetch of Read. -/
theorem create_reconciles_status_once_witness :
    (resourceSamlIdpCreate (sampleEnv remoteIdp none)
        (scenarioData.Set "status" (.str "INACTIVE")) []).log
      = [Call.create (buildSamlIdp (sampleEnv remoteIdp none)
            (scenarioData.Set "status" (.str "INACTIVE"))),
          Call.setStatus "0oa1b2c3" "INACTIVE", Call.fetch "0oa1b2c3"] ∧
    statusCalls (resourceSamlIdpCreate (sampleEnv remoteIdp none)
        (scenarioData.Set "status" (.str "INACTIVE")) []).log
      = [("0oa1b2c3", "INACTIVE")] := by
  have h := (create_reconciles_status_once (sampleEnv remoteIdp none)
    (scenarioData.Set "status" (.str "INACTIVE")) []
    { buildSamlIdp (sampleEnv remoteIdp none) (scenarioData.Set "status" (.str "INACTIVE"))
      with ID := "0oa1b2c3", Status := "ACTIVE" } rfl).1 (by decide)
  obtain ⟨⟨tail, _, hlog⟩, hcalls⟩ := h
  refine ⟨?_, hcalls⟩
  rw [Create_of_status_ok (sampleEnv remoteIdp none) _ [] rfl (by decide) rfl, Read_log]
  rfl

/-- C6, on the concrete instance whose remote refuses every create: the error
comes back as it is, the identifier is still empty and the create call is the
only call. -/
theorem create_failure_assigns_no_id_witness :
    (resourceSamlIdpCreate refusingEnv scenarioData []).err = some "remote rejected" ∧
    (resourceSamlIdpCreate refusingEnv scenarioData []).d.Id = "" ∧
    (resourceSamlIdpCreate refusingEnv scenarioData []).log
      = [Call.create (buildSamlIdp refusingEnv scenarioData)] := by
  have h := create_failure_assigns_no_id refusingEnv scenarioData [] "remote rejected" rfl
  exact ⟨h.1, h.2.2.1 rfl, h.2.2.2⟩

/-! ## Update -/

/-- C7: after the remote update succeeds, Update invokes the status
reconciliation with the existing identifier of the resource (the one held in
the resource data and used for the update call), the status of the model as
the update call left it, and the declared status; so when the two statuses
differ exactly one status-change call follows the update call, addressed to
the existing identifier, and when they are equal none.  The update call
(defined in another file) is taken to write the remote object for the
identifier addressed back into the model (`Env.UpdateWritesBack`). -/
theorem update_reconciles_existing_id {A : Type} (E : Env A) (hE : E.UpdateWritesBack)
    (d : ResourceData) (log : List (Call A)) (updated : SAMLIdentityProvider A)
    (hu : E.updateIdp log d.Id (buildSamlIdp E d) = .ok updated) :
    resourceSamlIdpUpdate E d log
      = (match setIdpStatus E d.Id updated.Status (d.GetString E "status")
            (log ++ [Call.update d.Id (buildSamlIdp E d)]) with
        | (log', some err) => ⟨(d.setPartialMode true).setPartialMode false, log', some err⟩
        | (log', none) =>
          resourceSamlIdpRead E ((d.setPartialMode true).setPartialMode false) log') ∧
    (updated.Status ≠ d.GetString E "status" →
      (∃ tail, (tail = [] ∨ tail = [Call.fetch d.Id]) ∧
        (resourceSamlIdpUpdate E d log).log
          = log ++ [Call.update d.Id (buildSamlIdp E d),
              Call.setStatus d.Id (d.GetString E "status")] ++ tail) ∧
      statusCalls (resourceSamlIdpUpdate E d log).log
        = statusCalls log ++ [(d.Id, d.GetString E "status")]) ∧
    (updated.Status = d.GetString E "status" →
      (resourceSamlIdpUpdate E d log).log
        = log ++ [Call.update d.Id (buildSamlIdp E d), Call.fetch d.Id] ∧
      statusCalls (resourceSamlIdpUpdate E d log).log = statusCalls log) := by
  have happ : ∀ xs ys : List (Call A), statusCalls (xs ++ ys) = statusCalls xs ++ statusCalls ys := by
    intro xs ys
    induction xs with
    | nil => rfl
    | cons x xs ih => cases x <;> simp [statusCalls, ih]
  have hid : updated.ID = d.Id := hE log d.Id (buildSamlIdp E d) updated hu
  refine ⟨?_, ?_, ?_⟩
  · by_cases hs : updated.Status = d.GetString E "status"
    · rw [Update_of_status_same E d log hu hs]
      simp [setIdpStatus, hs]
    · cases hx : E.changeStatus (log ++ [Call.update d.Id (buildSamlIdp E d)]) updated.ID
          (d.GetString E "status") with
      | none =>
        rw [Update_of_status_ok E d log hu hs hx]
        rw [hid] at hx
        simp [setIdpStatus, hs, hx, hid]
      | some err =>
        rw [Update_of_status_error E d log hu hs hx]
        rw [hid] at hx
        simp [setIdpStatus, hs, hx, hid]
  · intro hs
    cases hx : E.changeStatus (log ++ [Call.update d.Id (buildSamlIdp E d)]) updated.ID
        (d.GetString E "status") with
    | none =>
      rw [Update_of_status_ok E d log hu hs hx, Read_log, hid]
      refine ⟨⟨[Call.fetch d.Id], Or.inr rfl, ?_⟩, ?_⟩
      · simp [ResourceData.setPartialMode, ResourceData.Id]
      · simp [happ, statusCalls]
    | some err =>
      rw [Update_of_status_error E d log hu hs hx, hid]
      refine ⟨⟨[], Or.inl rfl, ?_⟩, ?_⟩
      · simp
      · simp [happ, statusCalls]
  · intro hs
    rw [Update_of_status_same E d log hu hs, Read_log]
    refine ⟨?_, ?_⟩
    · simp [ResourceData.setPartialMode, ResourceData.Id]
    · simp [happ, statusCalls]

/-- C7 on the concrete instance: the resource `0oa1b2c3` is updated, the
remote answers with the model under that identifier and status `ACTIVE`, the
configuration declares `INACTIVE`: the calls are the update, one status change
for `0oa1b2c3`, then the fetch of Read. -/
theorem update_reconciles_existing_id_witness :
    statusCalls (resourceSamlIdpUpdate (sampleEnv remoteIdp none)
        ((scenarioData.SetId "0oa1b2c3").Set "status" (.str "INACTIVE")) []).log
      = [("0oa1b2c3", "INACTIVE")] :=
  ((update_reconciles_existing_id (sampleEnv remoteIdp none)
    (fun _ _ _ _ h => by cases h; rfl)
    ((scenarioData.SetId "0oa1b2c3").Set "status" (.str "INACTIVE")) []
    { buildSamlIdp (sampleEnv remoteIdp none)
        ((scenarioData.SetId "0oa1b2c3").Set "status" (.str "INACTIVE"))
      with ID := "0oa1b2c3", Status := "ACTIVE" } rfl).2.1 (by decide)).2

/-! ## Failing steps -/

/-- C8: a failing step returns its error as it is and ends the operation with
the failing call as the last remote call (no compensating call, no fetch of
Read): (1) when the remote update call fails, the identifier is the one held
before; (2) when the status call of Update fails after a successful update,
the identifier is the one held before; (3) when the status call of Create
fails after a successful create, the identifier is the one the remote create
returned. -/
theorem failed_step_keeps_identifier {A : Type} (E : Env A) (d : ResourceData)
    (log : List (Call A)) :
    (∀ err, E.updateIdp log d.Id (buildSamlIdp E d) = .error err →
      (resourceSamlIdpUpdate E d log).err = some err ∧
      (resourceSamlIdpUpdate E d log).d.Id = d.Id ∧
      (resourceSamlIdpUpdate E d log).log
        = log ++ [Call.update d.Id (buildSamlIdp E d)]) ∧
    (∀ updated err, E.updateIdp log d.Id (buildSamlIdp E d) = .ok updated →
      updated.Status ≠ d.GetString E "status" →
      E.changeStatus (log ++ [Call.update d.Id (buildSamlIdp E d)]) updated.ID
        (d.GetString E "status") = some err →
      (resourceSamlIdpUpdate E d log).err = some err ∧
      (resourceSamlIdpUpdate E d log).d.Id = d.Id ∧
      (resourceSamlIdpUpdate E d log).log
        = log ++ [Call.update d.Id (buildSamlIdp E d),
            Call.setStatus updated.ID (d.GetString E "status")]) ∧
    (∀ created err, E.createIdp log (buildSamlIdp E d) = .ok created →
      created.Status ≠ d.GetString E "status" →
      E.changeStatus (log ++ [Call.create (buildSamlIdp E d)]) created.ID
        (d.GetString E "status") = some err →
      (resourceSamlIdpCreate E d log).err = some err ∧
      (resourceSamlIdpCreate E d log).d.Id = created.ID ∧
      (resourceSamlIdpCreate E d log).log
        = log ++ [Call.create (buildSamlIdp E d),
            Call.setStatus created.ID (d.GetString E "status")]) := by
  refine ⟨?_, ?_, ?_⟩
  · intro err h
    rw [Update_of_update_error E d log h]
    exact ⟨rfl, rfl, rfl⟩
  · intro updated err h hs hx
    rw [Update_of_status_error E d log h hs hx]
    exact ⟨rfl, rfl, rfl⟩
  · intro created err h hs hx
    rw [Create_of_status_error E d log h hs hx]
    exact ⟨rfl, rfl, rfl⟩

/-- C8 on the concrete instance: a refused update of `0oa1b2c3`, a failing
status call in the Update of `0oa1b2c3`, and a failing status call in a Create
that the remote answered with `0oa1b2c3`; each time the error is returned, the
identifier is `0oa1b2c3` and the failing call is the last one. -/
theorem failed_step_keeps_identifier_witness :
    ((resourceSamlIdpUpdate refusingEnv (scenarioData.SetId "0oa1b2c3") []).err
        = some "remote rejected" ∧
      (resourceSamlIdpUpdate refusingEnv (scenarioData.SetId "0oa1b2c3") []).d.Id
        = "0oa1b2c3" ∧
      (resourceSamlIdpUpdate refusingEnv (scenarioData.SetId "0oa1b2c3") []).log
        = [Call.update "0oa1b2c3" (buildSamlIdp refusingEnv (scenarioData.SetId "0oa1b2c3"))]) ∧
    ((resourceSamlIdpUpdate (sampleEnv remoteIdp (some "status failed"))
          ((scenarioData.SetId "0oa1b2c3").Set "status" (.str "INACTIVE")) []).err
        = some "status failed" ∧
      (resourceSamlIdpUpdate (sampleEnv remoteIdp (some "status failed"))
          ((scenarioData.SetId "0oa1b2c3").Set "status" (.str "INACTIVE")) []).d.Id
        = "0oa1b2c3" ∧
      statusCalls (resourceSamlIdpUpdate (sampleEnv remoteIdp (some "status failed"))
          ((scenarioData.SetId "0oa1b2c3").Set "status" (.str "INACTIVE")) []).log
        = [("0oa1b2c3", "INACTIVE")]) ∧
    ((resourceSamlIdpCreate (sampleEnv remoteIdp (some "status failed"))
          (scenarioData.Set "status" (.str "INACTIVE")) []).err
        = some "status failed" ∧
      (resourceSamlIdpCreate (sampleEnv remoteIdp (some "status failed"))
          (scenarioData.Set "status" (.str "INACTIVE")) []).d.Id
        = "0oa1b2c3" ∧
      statusCalls (resourceSamlIdpCreate (sampleEnv remoteIdp (some "status failed"))
          (scenarioData.Set "status" (.str "INACTIVE")) []).log
        = [("0oa1b2c3", "INACTIVE")]) := by
  have h1 := (failed_step_keeps_identifier refusingEnv (scenarioData.SetId "0oa1b2c3") []).1
    "remote rejected" rfl
  have h2 := (failed_step_keeps_identifier (sampleEnv remoteIdp (some "status failed"))
    ((scenarioData.SetId "0oa1b2c3").Set "status" (.str "INACTIVE")) []).2.1
    { buildSamlIdp (sampleEnv remoteIdp (some "status failed"))
        ((scenarioData.SetId "0oa1b2c3").Set "status" (.str "INACTIVE"))
      with ID := "0oa1b2c3", Status := "ACTIVE" } "status failed" rfl (by decide) rfl
  have h3 := (failed_step_keeps_identifier (sampleEnv remoteIdp (some "status failed"))
    (scenarioData.Set "status" (.str "INACTIVE")) []).2.2
    { buildSamlIdp (sampleEnv remoteIdp (some "status failed"))
        (scenarioData.Set "status" (.str "INACTIVE"))
      with ID := "0oa1b2c3", Status := "ACTIVE" } "status failed" rfl (by decide) rfl
  refine ⟨⟨h1.1, h1.2.1, h1.2.2⟩, ⟨h2.1, h2.2.1, ?_⟩, ⟨h3.1, h3.2.1, ?_⟩⟩
  · rw [h2.2.2]; rfl
  · rw [h3.2.2]; rfl

/-! ## The sync step of Read, block by block -/

theorem ReadSync_blocks {A : Type} (E : Env A) (d : ResourceData)
    (idp : SAMLIdentityProvider A) :
    resourceSamlIdpReadSync E d idp
      = readGuarded (E.syncAlgo (readScalars d idp) idp.Protocol.Algorithms) idp := rfl

/-- The block of unconditional assignments leaves every other attribute as it
was. -/
theorem attr_readScalars_of_not_written {A : Type} (d : ResourceData)
    (idp : SAMLIdentityProvider A) (k : String)
    (hk : k ∉ ["name", "provisioning_action", "deprovisioned_action", "profile_master",
      "suspended_action", "groups_action", "subject_match_type", "subject_filter",
      "username_template", "issuer", "audience", "kid"]) :
    (readScalars d idp).attr k = d.attr k := by
  simp only [List.mem_cons, List.mem_singleton, List.not_mem_nil, or_false, not_or] at hk
  obtain ⟨h1, h2, h3, h4, h5, h6, h7, h8, h9, h10, h11, h12⟩ := hk
  unfold readScalars
  rw [ResourceData.attr_Set_of_ne _ _ h12, ResourceData.attr_Set_of_ne _ _ h11,
    ResourceData.attr_Set_of_ne _ _ h10, ResourceData.attr_Set_of_ne _ _ h9,
    ResourceData.attr_Set_of_ne _ _ h8, ResourceData.attr_Set_of_ne _ _ h7,
    ResourceData.attr_Set_of_ne _ _ h6, ResourceData.attr_Set_of_ne _ _ h5,
    ResourceData.attr_Set_of_ne _ _ h4, ResourceData.attr_Set_of_ne _ _ h3,
    ResourceData.attr_Set_of_ne _ _ h2, ResourceData.attr_Set_of_ne _ _ h1]

/-- The seven string attributes the block of unconditional assignments writes
from string fields of the model. -/
theorem strs_readScalars {A : Type} (d : ResourceData) (idp : SAMLIdentityProvider A) :
    (readScalars d idp).strs "name" = some idp.Name ∧
    (readScalars d idp).strs "subject_match_type" = some idp.Policy.Subject.MatchType ∧
    (readScalars d idp).strs "subject_filter" = some idp.Policy.Subject.Filter ∧
    (readScalars d idp).strs "username_template"
      = some idp.Policy.Subject.UserNameTemplate.Template ∧
    (readScalars d idp).strs "issuer" = some idp.Protocol.Credentials.Trust.Issuer ∧
    (readScalars d idp).strs "audience" = some idp.Protocol.Credentials.Trust.Audience ∧
    (readScalars d idp).strs "kid" = some idp.Protocol.Credentials.Trust.Kid := by
  unfold readScalars
  refine ⟨?_, ?_, ?_, ?_, ?_, ?_, ?_⟩ <;>
    simp [ResourceData.strs_Set_of_ne, ResourceData.strs_Set_str]

/-- The block of guarded assignments leaves alone every attribute other than
`issuer_mode`, the two account-link attributes and `subject_format`. -/
theorem attr_readGuarded_of_not_written {A : Type} (d : ResourceData)
    (idp : SAMLIdentityProvider A) (k : String)
    (hk : k ∉ ["issuer_mode", "account_link_action", "account_link_group_include",
      "subject_format"]) :
    (readGuarded d idp).1.attr k = d.attr k := by
  simp only [List.mem_cons, List.mem_singleton, List.not_mem_nil, or_false, not_or] at hk
  obtain ⟨h1, h2, h3, h4⟩ := hk
  unfold readGuarded setNonPrimitives
  simp only [List.foldl_cons, List.foldl_nil]
  rw [ResourceData.attr_Set_of_ne _ _ h4]
  cases idp.Policy.AccountLink with
  | none =>
    by_cases h : idp.IssuerMode = ""
    · simp [h]
    · simp [h, ResourceData.attr_Set_of_ne _ _ h1]
  | some link =>
    simp only []
    rw [ResourceData.attr_Set_of_ne _ _ h3, ResourceData.attr_Set_of_ne _ _ h2]
    by_cases h : idp.IssuerMode = ""
    · simp [h]
    · simp [h, ResourceData.attr_Set_of_ne _ _ h1]

theorem strs_of_attr {d d' : ResourceData} {k : String} (h : d.attr k = d'.attr k) :
    d.strs k = d'.strs k := by
  simpa [ResourceData.attr] using (congrArg Prod.fst h)

theorem readGuarded_issuer_mode_set {A : Type} (d : ResourceData)
    (idp : SAMLIdentityProvider A) (h : idp.IssuerMode ≠ "") :
    (readGuarded d idp).1.strs "issuer_mode" = some idp.IssuerMode := by
  unfold readGuarded setNonPrimitives
  cases idp.Policy.AccountLink <;>
    simp [h, ResourceData.strs_Set_of_ne, ResourceData.strs_Set_str]

theorem readGuarded_issuer_mode_kept {A : Type} (d : ResourceData)
    (idp : SAMLIdentityProvider A) (h : idp.IssuerMode = "") :
    (readGuarded d idp).1.attr "issuer_mode" = d.attr "issuer_mode" := by
  unfold readGuarded setNonPrimitives
  cases idp.Policy.AccountLink <;> simp [h, ResourceData.attr_Set_of_ne]

theorem readGuarded_link_set {A : Type} (d : ResourceData) (idp : SAMLIdentityProvider A)
    (link : AccountLink) (h : idp.Policy.AccountLink = some link) :
    (readGuarded d idp).1.holds "account_link_action" link.Action ∧
    (readGuarded d idp).1.holds "account_link_group_include" link.Filter := by
  unfold readGuarded setNonPrimitives
  simp only [h, List.foldl_cons, List.foldl_nil]
  constructor
  · exact ResourceData.holds_Set_of_ne _ _ _ (by decide)
      (ResourceData.holds_Set_of_ne _ _ _ (by decide) (ResourceData.holds_Set_self _ _ _))
  · exact ResourceData.holds_Set_of_ne _ _ _ (by decide) (ResourceData.holds_Set_self _ _ _)

theorem readGuarded_link_kept {A : Type} (d : ResourceData) (idp : SAMLIdentityProvider A)
    (h : idp.Policy.AccountLink = none) :
    (readGuarded d idp).1.attr "account_link_action" = d.attr "account_link_action" ∧
    (readGuarded d idp).1.attr "account_link_group_include"
      = d.attr "account_link_group_include" := by
  unfold readGuarded setNonPrimitives
  by_cases hm : idp.IssuerMode = "" <;> simp [h, hm, ResourceData.attr_Set_of_ne]

/-- Under the contract of `syncAlgo`, the first two blocks of the sync step
leave alone every attribute of `samlAttributes` that the block of
unconditional assignments does not write. -/
theorem attr_before_guarded {A : Type} (E : Env A) (hE : E.SyncAlgoScoped)
    (d : ResourceData) (idp : SAMLIdentityProvider A) (k : String)
    (hk : k ∈ samlAttributes)
    (hw : k ∉ ["name", "provisioning_action", "deprovisioned_action", "profile_master",
      "suspended_action", "groups_action", "subject_match_type", "subject_filter",
      "username_template", "issuer", "audience", "kid"]) :
    (E.syncAlgo (readScalars d idp) idp.Protocol.Algorithms).attr k = d.attr k := by
  rw [(hE _ _).2 k hk, attr_readScalars_of_not_written d idp k hw]

/-- The concrete `syncAlgo` meets the contract. -/
theorem sampleEnv_scoped (fetched : SAMLIdentityProvider String) (statusErr : Option Err) :
    (sampleEnv fetched statusErr).SyncAlgoScoped := by
  intro d a
  refine ⟨rfl, fun k hk => ?_⟩
  have hne : k ≠ "response_signature_algorithm" := by
    intro h
    subst h
    revert hk
    decide
  exact ResourceData.attr_Set_of_ne d (.str a) hne

/-! ## Read -/

/-- C10, as amended: after a successful fetch each of the string attributes
name, subject_match_type, subject_filter, username_template, issuer, audience
and kid reads as the corresponding field of the fetched model (`syncAlgo`
writing signature settings only). -/
theorem read_sets_scalar_attributes {A : Type} (E : Env A) (hE : E.SyncAlgoScoped)
    (d : ResourceData) (log : List (Call A)) (idp : SAMLIdentityProvider A)
    (hf : E.fetchIdp log d.Id = .ok idp) :
    (resourceSamlIdpRead E d log).d.GetString E "name" = idp.Name ∧
    (resourceSamlIdpRead E d log).d.GetString E "subject_match_type"
      = idp.Policy.Subject.MatchType ∧
    (resourceSamlIdpRead E d log).d.GetString E "subject_filter"
      = idp.Policy.Subject.Filter ∧
    (resourceSamlIdpRead E d log).d.GetString E "username_template"
      = idp.Policy.Subject.UserNameTemplate.Template ∧
    (resourceSamlIdpRead E d log).d.GetString E "issuer"
      = idp.Protocol.Credentials.Trust.Issuer ∧
    (resourceSamlIdpRead E d log).d.GetString E "audience"
      = idp.Protocol.Credentials.Trust.Audience ∧
    (resourceSamlIdpRead E d log).d.GetString E "kid"
      = idp.Protocol.Credentials.Trust.Kid := by
  rw [Read_of_fetch_ok E d log hf, ReadSync_blocks]
  have key : ∀ k, k ∈ samlAttributes →
      k ∉ ["issuer_mode", "account_link_action", "account_link_group_include",
        "subject_format"] →
      (readGuarded (E.syncAlgo (readScalars d idp) idp.Protocol.Algorithms) idp).1.strs k
        = (readScalars d idp).strs k := by
    intro k hk hg
    rw [strs_of_attr (attr_readGuarded_of_not_written _ idp k hg),
      strs_of_attr ((hE _ _).2 k hk)]
  obtain ⟨h1, h2, h3, h4, h5, h6, h7⟩ := strs_readScalars d idp
  refine ⟨?_, ?_, ?_, ?_, ?_, ?_, ?_⟩
  · exact ResourceData.GetString_of_strs E _ ((key _ (by decide) (by decide)).trans h1)
  · exact ResourceData.GetString_of_strs E _ ((key _ (by decide) (by decide)).trans h2)
  · exact ResourceData.GetString_of_strs E _ ((key _ (by decide) (by decide)).trans h3)
  · exact ResourceData.GetString_of_strs E _ ((key _ (by decide) (by decide)).trans h4)
  · exact ResourceData.GetString_of_strs E _ ((key _ (by decide) (by decide)).trans h5)
  · exact ResourceData.GetString_of_strs E _ ((key _ (by decide) (by decide)).trans h6)
  · exact ResourceData.GetString_of_strs E _ ((key _ (by decide) (by decide)).trans h7)

/-- C10, as amended, on the concrete instance: after Read the name is the
remote `corp-idp` and the subject match type the remote `USERNAME`. -/
theorem read_sets_scalar_attributes_witness :
    (resourceSamlIdpRead (sampleEnv remoteIdp none)
        (scenarioData.SetId "0oa1b2c3") []).d.GetString (sampleEnv remoteIdp none) "name"
      = "corp-idp" ∧
    (resourceSamlIdpRead (sampleEnv remoteIdp none)
        (scenarioData.SetId "0oa1b2c3") []).d.GetString (sampleEnv remoteIdp none)
        "subject_match_type"
      = "USERNAME" := by
  have h := read_sets_scalar_attributes (sampleEnv remoteIdp none)
    (sampleEnv_scoped remoteIdp none) (scenarioData.SetId "0oa1b2c3") [] remoteIdp rfl
  exact ⟨h.1, h.2.1⟩

/-- C10 as stated fails: the configuration holds the SSO URL
`https://idp.example.com/sso` and no explicit binding, the fetched model the
SSO URL `https://remote.example.com/sso`, the SSO binding `HTTP-POST` and the
ACS binding `HTTP-POST`; after a successful Read the attributes sso_url,
sso_binding and acs_binding still read as before, not as the fetched model. -/
theorem read_leaves_endpoint_attributes :
    (sampleEnv remoteIdp none).fetchIdp [] (scenarioData.SetId "0oa1b2c3").Id
      = .ok remoteIdp ∧
    (resourceSamlIdpRead (sampleEnv remoteIdp none) (scenarioData.SetId "0oa1b2c3") []).err
      = none ∧
    remoteIdp.Protocol.Endpoints.Sso.URL = "https://remote.example.com/sso" ∧
    (resourceSamlIdpRead (sampleEnv remoteIdp none)
        (scenarioData.SetId "0oa1b2c3") []).d.GetString (sampleEnv remoteIdp none) "sso_url"
      = "https://idp.example.com/sso" ∧
    remoteIdp.Protocol.Endpoints.Sso.Binding = "HTTP-POST" ∧
    (resourceSamlIdpRead (sampleEnv remoteIdp none)
        (scenarioData.SetId "0oa1b2c3") []).d.GetString (sampleEnv remoteIdp none)
        "sso_binding"
      = "POST" ∧
    remoteIdp.Protocol.Endpoints.Acs.Binding = "HTTP-POST" ∧
    (resourceSamlIdpRead (sampleEnv remoteIdp none)
        (scenarioData.SetId "0oa1b2c3") []).d.GetString (sampleEnv remoteIdp none)
        "acs_binding"
      = "" := by
  refine ⟨rfl, rfl, rfl, ?_, rfl, ?_, rfl, ?_⟩ <;> decide

/-- C3, as amended: after a successful fetch Read leaves the attributes whose
assignment it guards as they were when the corresponding part of the fetched
model is absent: issuer_mode when the fetched issuer mode is empty,
account_link_action and account_link_group_include when the fetched model has
no AccountLink (`syncAlgo` writing signature settings only). -/
theorem read_keeps_guarded_attributes {A : Type} (E : Env A) (hE : E.SyncAlgoScoped)
    (d : ResourceData) (log : List (Call A)) (idp : SAMLIdentityProvider A)
    (hf : E.fetchIdp log d.Id = .ok idp) :
    (idp.IssuerMode = "" →
      (resourceSamlIdpRead E d log).d.attr "issuer_mode" = d.attr "issuer_mode" ∧
      (resourceSamlIdpRead E d log).d.GetString E "issuer_mode"
        = d.GetString E "issuer_mode") ∧
    (idp.Policy.AccountLink = none →
      (resourceSamlIdpRead E d log).d.attr "account_link_action"
        = d.attr "account_link_action" ∧
      (resourceSamlIdpRead E d log).d.attr "account_link_group_include"
        = d.attr "account_link_group_include") := by
  rw [Read_of_fetch_ok E d log hf, ReadSync_blocks]
  refine ⟨?_, ?_⟩
  · intro hm
    have h : (readGuarded (E.syncAlgo (readScalars d idp) idp.Protocol.Algorithms) idp).1.attr
        "issuer_mode" = d.attr "issuer_mode" := by
      rw [readGuarded_issuer_mode_kept _ idp hm]
      exact attr_before_guarded E hE d idp _ (by decide) (by decide)
    refine ⟨h, ?_⟩
    simp only [ResourceData.GetString, ResourceData.getStr, strs_of_attr h]
  · intro hl
    rw [(readGuarded_link_kept _ idp hl).1, (readGuarded_link_kept _ idp hl).2]
    exact ⟨attr_before_guarded E hE d idp _ (by decide) (by decide),
      attr_before_guarded E hE d idp _ (by decide) (by decide)⟩

/-- C3, as amended, on the regression scenario: the configuration holds
issuer_mode `ORG_URL`, the fetched model carries no issuer mode and no
AccountLink; after Read issuer_mode is still `ORG_URL`. -/
theorem read_keeps_guarded_attributes_witness :
    (resourceSamlIdpRead (sampleEnv remoteIdp none)
        ((scenarioData.SetId "0oa1b2c3").Set "issuer_mode" (.str "ORG_URL")) []).d.strs
        "issuer_mode"
      = some "ORG_URL" :=
  (strs_of_attr ((read_keeps_guarded_attributes (sampleEnv remoteIdp none)
    (sampleEnv_scoped remoteIdp none)
    ((scenarioData.SetId "0oa1b2c3").Set "issuer_mode" (.str "ORG_URL")) [] remoteIdp
    rfl).1 rfl).1).trans (by decide)

/-- C3 as stated fails: the configuration holds the subject filter
`(.+)@example.com`, the fetched model has no subject filter (the empty
string); after a successful Read the attribute is cleared. -/
theorem read_clears_subject_filter :
    ((scenarioData.SetId "0oa1b2c3").Set "subject_filter"
        (.str "(.+)@example.com")).GetString (sampleEnv remoteIdp none) "subject_filter"
      = "(.+)@example.com" ∧
    (sampleEnv remoteIdp none).fetchIdp []
        ((scenarioData.SetId "0oa1b2c3").Set "subject_filter" (.str "(.+)@example.com")).Id
      = .ok remoteIdp ∧
    remoteIdp.Policy.Subject.Filter = "" ∧
    (resourceSamlIdpRead (sampleEnv remoteIdp none)
        ((scenarioData.SetId "0oa1b2c3").Set "subject_filter"
          (.str "(.+)@example.com")) []).err = none ∧
    (resourceSamlIdpRead (sampleEnv remoteIdp none)
        ((scenarioData.SetId "0oa1b2c3").Set "subject_filter"
          (.str "(.+)@example.com")) []).d.GetString (sampleEnv remoteIdp none)
        "subject_filter"
      = "" := by
  refine ⟨?_, rfl, rfl, rfl, ?_⟩ <;> decide

/-- C4: after a successful fetch, account_link_action and
account_link_group_include hold the action and the filter of the fetched
AccountLink when the fetched model has one and are as before when it has
none; issuer_mode holds the fetched issuer mode when that is non-empty and is
as before when it is empty (`syncAlgo` writing signature settings only). -/
theorem read_syncs_present_objects_only {A : Type} (E : Env A) (hE : E.SyncAlgoScoped)
    (d : ResourceData) (log : List (Call A)) (idp : SAMLIdentityProvider A)
    (hf : E.fetchIdp log d.Id = .ok idp) :
    (∀ link, idp.Policy.AccountLink = some link →
      (resourceSamlIdpRead E d log).d.holds "account_link_action" link.Action ∧
      (resourceSamlIdpRead E d log).d.holds "account_link_group_include" link.Filter) ∧
    (idp.Policy.AccountLink = none →
      (resourceSamlIdpRead E d log).d.attr "account_link_action"
        = d.attr "account_link_action" ∧
      (resourceSamlIdpRead E d log).d.attr "account_link_group_include"
        = d.attr "account_link_group_include") ∧
    (idp.IssuerMode ≠ "" →
      (resourceSamlIdpRead E d log).d.strs "issuer_mode" = some idp.IssuerMode) ∧
    (idp.IssuerMode = "" →
      (resourceSamlIdpRead E d log).d.attr "issuer_mode" = d.attr "issuer_mode") := by
  rw [Read_of_fetch_ok E d log hf, ReadSync_blocks]
  refine ⟨?_, ?_, ?_, ?_⟩
  · intro link hl
    exact readGuarded_link_set _ idp link hl
  · intro hl
    rw [(readGuarded_link_kept _ idp hl).1, (readGuarded_link_kept _ idp hl).2]
    exact ⟨attr_before_guarded E hE d idp _ (by decide) (by decide),
      attr_before_guarded E hE d idp _ (by decide) (by decide)⟩
  · intro hm
    exact readGuarded_issuer_mode_set _ idp hm
  · intro hm
    rw [readGuarded_issuer_mode_kept _ idp hm]
    exact attr_before_guarded E hE d idp _ (by decide) (by decide)

/-- C4 on the concrete instance: a fetched model with issuer mode
`CUSTOM_URL` and an AccountLink overwrites the three attributes; a fetched
model with neither leaves the account-link action `DISABLED` of the
configuration in place. -/
theorem read_syncs_present_objects_only_witness :
    ((resourceSamlIdpRead (sampleEnv linkedIdp none)
        ((scenarioData.SetId "0oa1b2c3").Set "account_link_action" (.str "DISABLED")) []).d.strs
        "issuer_mode" = some "CUSTOM_URL" ∧
      (resourceSamlIdpRead (sampleEnv linkedIdp none)
        ((scenarioData.SetId "0oa1b2c3").Set "account_link_action" (.str "DISABLED")) []).d.holds
        "account_link_action" (.str "AUTO") ∧
      (resourceSamlIdpRead (sampleEnv linkedIdp none)
        ((scenarioData.SetId "0oa1b2c3").Set "account_link_action" (.str "DISABLED")) []).d.holds
        "account_link_group_include" (.set {"00g1emaKYZTWRYYRRTSK"})) ∧
    (resourceSamlIdpRead (sampleEnv remoteIdp none)
        ((scenarioData.SetId "0oa1b2c3").Set "account_link_action" (.str "DISABLED")) []).d.strs
        "account_link_action" = some "DISABLED" := by
  have h1 := read_syncs_present_objects_only (sampleEnv linkedIdp none)
    (sampleEnv_scoped linkedIdp none)
    ((scenarioData.SetId "0oa1b2c3").Set "account_link_action" (.str "DISABLED")) []
    linkedIdp rfl
  have h2 := read_syncs_present_objects_only (sampleEnv remoteIdp none)
    (sampleEnv_scoped remoteIdp none)
    ((scenarioData.SetId "0oa1b2c3").Set "account_link_action" (.str "DISABLED")) []
    remoteIdp rfl
  refine ⟨⟨h1.2.2.1 (by decide), (h1.1 _ rfl).1, (h1.1 _ rfl).2⟩, ?_⟩
  exact (strs_of_attr (h2.2.1 rfl).1).trans (by decide)

/-! ## Defaults -/

theorem GetSet_Set_of_ne (d : ResourceData) {j k : String} (v : Value) (h : j ≠ k) :
    (d.Set k v).GetSet j = d.GetSet j := by
  cases v <;> simp [ResourceData.Set, ResourceData.GetSet, h]

/-- The fields `buildSamlIdp` fills itself do not depend on name_format: apart
from the sub-objects the helpers build, the model is the same whatever
name_format is set to. -/
theorem buildSamlIdp_ignores_name_format {A : Type} (E : Env A) (d : ResourceData)
    (v : Value) :
    buildSamlIdp E (d.Set "name_format" v)
      = { buildSamlIdp E d with
          Policy :=
            { (buildSamlIdp E d).Policy with
              AccountLink := E.NewAccountLink (d.Set "name_format" v)
              Provisioning := E.NewIdpProvisioning (d.Set "name_format" v) }
          Protocol :=
            { (buildSamlIdp E d).Protocol with
              Algorithms := E.NewAlgorithms (d.Set "name_format" v) } } := by
  simp only [buildSamlIdp]
  rw [ResourceData.GetString_Set_of_ne E d v (by decide : "name" ≠ "name_format"),
    ResourceData.GetString_Set_of_ne E d v (by decide : "issuer_mode" ≠ "name_format"),
    ResourceData.GetString_Set_of_ne E d v (by decide : "subject_filter" ≠ "name_format"),
    ResourceData.GetString_Set_of_ne E d v
      (by decide : "subject_match_type" ≠ "name_format"),
    ResourceData.GetString_Set_of_ne E d v
      (by decide : "username_template" ≠ "name_format"),
    ResourceData.GetString_Set_of_ne E d v (by decide : "acs_binding" ≠ "name_format"),
    ResourceData.GetString_Set_of_ne E d v (by decide : "acs_type" ≠ "name_format"),
    ResourceData.GetString_Set_of_ne E d v (by decide : "sso_binding" ≠ "name_format"),
    ResourceData.GetString_Set_of_ne E d v
      (by decide : "sso_destination" ≠ "name_format"),
    ResourceData.GetString_Set_of_ne E d v (by decide : "sso_url" ≠ "name_format"),
    ResourceData.GetString_Set_of_ne E d v (by decide : "issuer" ≠ "name_format"),
    ResourceData.GetString_Set_of_ne E d v (by decide : "audience" ≠ "name_format"),
    ResourceData.GetString_Set_of_ne E d v (by decide : "kid" ≠ "name_format"),
    GetSet_Set_of_ne d v (by decide : "subject_format" ≠ "name_format")]

/-- C2, as amended: for every configuration that gives no explicit acs_type,
sso_binding or name_format (whatever else it supplies), `buildSamlIdp` yields
a model whose ACS type is "INSTANCE" and whose SSO binding is "POST", and the
configuration attribute name_format reads as
"urn:oasis:names:tc:SAML:1.1:nameid-format:unspecified". -/
theorem buildSamlIdp_defaults {A : Type} (E : Env A) (d : ResourceData)
    (h1 : d.strs "acs_type" = none) (h2 : d.strs "sso_binding" = none)
    (h3 : d.strs "name_format" = none) :
    (buildSamlIdp E d).Protocol.Endpoints.Acs.Type_ = "INSTANCE" ∧
    (buildSamlIdp E d).Protocol.Endpoints.Sso.Binding = "POST" ∧
    d.GetString E "name_format"
      = "urn:oasis:names:tc:SAML:1.1:nameid-format:unspecified" := by
  refine ⟨?_, ?_, ?_⟩
  · simp [buildSamlIdp, ResourceData.GetString, ResourceData.getStr, h1,
      resourceSamlIdpDefault]
  · simp [buildSamlIdp, ResourceData.GetString, ResourceData.getStr, h2,
      resourceSamlIdpDefault, postBindingAlias]
  · simp [ResourceData.GetString, ResourceData.getStr, h3, resourceSamlIdpDefault]

/-- C2, as amended, on the scenario of §8: the five required attributes and
nothing else. -/
theorem buildSamlIdp_defaults_witness :
    (buildSamlIdp (sampleEnv remoteIdp none) scenarioData).Protocol.Endpoints.Acs.Type_
      = "INSTANCE" ∧
    (buildSamlIdp (sampleEnv remoteIdp none) scenarioData).Protocol.Endpoints.Sso.Binding
      = "POST" ∧
    scenarioData.GetString (sampleEnv remoteIdp none) "name_format"
      = "urn:oasis:names:tc:SAML:1.1:nameid-format:unspecified" := by
  have h := buildSamlIdp_defaults (sampleEnv remoteIdp none) scenarioData
    (by decide) (by decide) (by decide)
  exact h

/-- C2 as stated fails: on the scenario of §8 no string field of the model
`buildSamlIdp` yields is the default name format; the model has no name
format. -/
theorem buildSamlIdp_has_no_name_format :
    scenarioData.strs "acs_type" = none ∧ scenarioData.strs "sso_binding" = none ∧
    scenarioData.strs "name_format" = none ∧
    "urn:oasis:names:tc:SAML:1.1:nameid-format:unspecified"
      ∉ (buildSamlIdp (sampleEnv remoteIdp none) scenarioData).scalars := by
  refine ⟨by decide, by decide, by decide, ?_⟩
  simp [SAMLIdentityProvider.scalars, buildSamlIdp, sampleEnv, sampleGet, scenarioData,
    emptyData, ResourceData.Set, ResourceData.GetString, ResourceData.getStr,
    ResourceData.GetSet, ResourceData.GetBool, resourceSamlIdpDefault, postBindingAlias,
    Value.strings]

/-! ## Round trip -/

namespace ResourceData

theorem Same.refl {A : Type} (E : Env A) (d : ResourceData) : d.Same E d :=
  ⟨rfl, fun _ => rfl, fun _ => rfl, fun _ => rfl⟩

theorem Same.symm {A : Type} {E : Env A} {d d' : ResourceData} (h : d.Same E d') :
    d'.Same E d :=
  ⟨h.1.symm, fun k => (h.2.1 k).symm, fun k => (h.2.2.1 k).symm, fun k => (h.2.2.2 k).symm⟩

theorem Same.trans {A : Type} {E : Env A} {d₁ d₂ d₃ : ResourceData} (h : d₁.Same E d₂)
    (h' : d₂.Same E d₃) : d₁.Same E d₃ :=
  ⟨h.1.trans h'.1, fun k => (h.2.1 k).trans (h'.2.1 k),
    fun k => (h.2.2.1 k).trans (h'.2.2.1 k), fun k => (h.2.2.2 k).trans (h'.2.2.2 k)⟩

theorem GetString_Set_str {A : Type} (E : Env A) (d : ResourceData) (k s j : String) :
    (d.Set k (.str s)).GetString E j = if j = k then s else d.GetString E j := by
  by_cases h : j = k <;> simp [GetString, getStr, Set, h]

theorem GetBool_Set_bool (d : ResourceData) (k : String) (b : Bool) (j : String) :
    (d.Set k (.bool b)).GetBool j = if j = k then b else d.GetBool j := by
  by_cases h : j = k <;> simp [GetBool, Set, h]

theorem GetSet_Set_set (d : ResourceData) (k : String) (s : Finset String) (j : String) :
    (d.Set k (.set s)).GetSet j = if j = k then s else d.GetSet j := by
  by_cases h : j = k <;> simp [GetSet, Set, h]

/-- Assigning the same value on both sides keeps two resource data
indistinguishable. -/
theorem Same.Set {A : Type} {E : Env A} {d d' : ResourceData} (h : d.Same E d')
    (k : String) (v : Value) : (d.Set k v).Same E (d'.Set k v) := by
  obtain ⟨hid, hs, hb, ht⟩ := h
  cases v with
  | str s =>
    exact ⟨hid, fun j => by rw [GetString_Set_str, GetString_Set_str, hs j],
      fun j => hb j, fun j => ht j⟩
  | bool b =>
    exact ⟨hid, fun j => hs j, fun j => by rw [GetBool_Set_bool, GetBool_Set_bool, hb j],
      fun j => ht j⟩
  | set s =>
    exact ⟨hid, fun j => hs j, fun j => hb j,
      fun j => by rw [GetSet_Set_set, GetSet_Set_set, ht j]⟩

/-- Assigning to an attribute the value it already reads as changes nothing
that can be seen. -/
theorem Same_Set_of_Gets {A : Type} (E : Env A) (d : ResourceData) (k : String) (v : Value)
    (h : d.Gets E k v) : (d.Set k v).Same E d := by
  cases v with
  | str s =>
    refine ⟨rfl, fun j => ?_, fun _ => rfl, fun _ => rfl⟩
    rw [GetString_Set_str]
    by_cases hj : j = k
    · subst hj; simpa [Gets] using h.symm
    · simp [hj]
  | bool b =>
    refine ⟨rfl, fun _ => rfl, fun j => ?_, fun _ => rfl⟩
    rw [GetBool_Set_bool]
    by_cases hj : j = k
    · subst hj; simpa [Gets] using h.symm
    · simp [hj]
  | set s =>
    refine ⟨rfl, fun _ => rfl, fun _ => rfl, fun j => ?_⟩
    rw [GetSet_Set_set]
    by_cases hj : j = k
    · subst hj; simpa [Gets] using h.symm
    · simp [hj]

/-- One assignment of the sync step, when the value comes from the
configuration itself. -/
theorem Same.step {A : Type} {E : Env A} {d₁ d : ResourceData} (h : d₁.Same E d)
    (k : String) (v : Value) (hv : d.Gets E k v) : (d₁.Set k v).Same E d :=
  (h.Set k v).trans (Same_Set_of_Gets E d k v hv)

end ResourceData

/-- Indistinguishable resource data build the same model, when the helpers
see the resource data through `d.Id()` and `d.Get` only. -/
theorem buildSamlIdp_congr {A : Type} (E : Env A) (hE : E.SyncStable)
    {d d' : ResourceData} (h : d.Same E d') : buildSamlIdp E d = buildSamlIdp E d' := by
  simp only [buildSamlIdp, hE.link_congr d d' h, hE.prov_congr d d' h, hE.algo_congr d d' h,
    h.2.1, h.2.2.2]

/-- The sync step applied to the model built from the configuration changes
nothing `d.Id()` or `d.Get` can see. -/
theorem ReadSync_build_Same {A : Type} (E : Env A) (hE : E.SyncStable) (d : ResourceData) :
    (resourceSamlIdpReadSync E d (buildSamlIdp E d)).1.Same E d := by
  have h1 : (readScalars d (buildSamlIdp E d)).Same E d := by
    unfold readScalars
    refine ResourceData.Same.step (ResourceData.Same.step (ResourceData.Same.step
      (ResourceData.Same.step (ResourceData.Same.step (ResourceData.Same.step
      (ResourceData.Same.step (ResourceData.Same.step (ResourceData.Same.step
      (ResourceData.Same.step (ResourceData.Same.step (ResourceData.Same.step
      (ResourceData.Same.refl E d) _ _ ?_) _ _ ?_) _ _ ?_) _ _ ?_) _ _ ?_) _ _ ?_)
      _ _ ?_) _ _ ?_) _ _ ?_) _ _ ?_) _ _ ?_) _ _ ?_
    · rfl
    · exact hE.prov_action d
    · exact hE.prov_deprovisioned d
    · exact hE.prov_master d
    · exact hE.prov_suspended d
    · exact hE.prov_groups d
    · rfl
    · rfl
    · rfl
    · rfl
    · rfl
    · rfl
  have h2 : (E.syncAlgo (readScalars d (buildSamlIdp E d))
      (buildSamlIdp E d).Protocol.Algorithms).Same E d :=
    (hE.sync_congr _ _ _ h1).trans (hE.algo_stable d)
  rw [ReadSync_blocks]
  unfold readGuarded setNonPrimitives
  simp only [List.foldl_cons, List.foldl_nil]
  refine ResourceData.Same.step ?_ _ _ ?_
  · have h3 : (if (buildSamlIdp E d).IssuerMode ≠ "" then
          (E.syncAlgo (readScalars d (buildSamlIdp E d))
            (buildSamlIdp E d).Protocol.Algorithms).Set "issuer_mode"
            (.str (buildSamlIdp E d).IssuerMode)
        else E.syncAlgo (readScalars d (buildSamlIdp E d))
          (buildSamlIdp E d).Protocol.Algorithms).Same E d := by
      split_ifs with hm
      · exact ResourceData.Same.step h2 "issuer_mode" (.str (buildSamlIdp E d).IssuerMode) rfl
      · exact h2
    cases hl : (buildSamlIdp E d).Policy.AccountLink with
    | none => simpa using h3
    | some link =>
      have hl' : E.NewAccountLink d = some link := hl
      exact ResourceData.Same.step (ResourceData.Same.step h3 _ _ (hE.link_action d link hl'))
        _ _ (hE.link_filter d link hl')
  · show d.GetSet "subject_format"
      = (E.convertInterfaceToStringSet (d.GetSet "subject_format")).toFinset
    exact (hE.set_elems _).symm

/-- C1: for every configuration `d`, building the model, applying the sync
step of Read to that model starting from `d`, and building again yields the
same model: the same Subject Format as a set, and every scalar field exactly;
the helpers defined in other files are assumed to be sync-stable themselves
(`Env.SyncStable`). -/
theorem build_sync_build {A : Type} (E : Env A) (hE : E.SyncStable) (d : ResourceData) :
    buildSamlIdp E (resourceSamlIdpReadSync E d (buildSamlIdp E d)).1 = buildSamlIdp E d ∧
    (buildSamlIdp E (resourceSamlIdpReadSync E d
        (buildSamlIdp E d)).1).Policy.Subject.Format.toFinset
      = (buildSamlIdp E d).Policy.Subject.Format.toFinset :=
  ⟨buildSamlIdp_congr E hE (ReadSync_build_Same E hE d),
    by rw [buildSamlIdp_congr E hE (ReadSync_build_Same E hE d)]⟩

/-- The concrete helpers are sync-stable. -/
theorem sampleEnv_syncStable (fetched : SAMLIdentityProvider String)
    (statusErr : Option Err) : (sampleEnv fetched statusErr).SyncStable := by
  refine
    { link_congr := ?_, prov_congr := ?_, algo_congr := ?_, sync_congr := ?_,
      prov_action := fun _ => rfl, prov_deprovisioned := fun _ => rfl,
      prov_master := fun _ => rfl, prov_suspended := fun _ => rfl,
      prov_groups := fun _ => rfl, link_action := ?_, link_filter := ?_,
      algo_stable := ?_, set_elems := ?_ }
  · intro d d' h
    have hg : ∀ k, sampleGet d k = sampleGet d' k := fun k => h.2.1 k
    simp only [sampleEnv, hg, h.2.2.2]
  · intro d d' h
    have hg : ∀ k, sampleGet d k = sampleGet d' k := fun k => h.2.1 k
    simp only [sampleEnv, hg, h.2.2.1]
  · intro d d' h
    have hg : ∀ k, sampleGet d k = sampleGet d' k := fun k => h.2.1 k
    simp only [sampleEnv, hg]
  · intro d d' a h
    exact h.Set _ _
  · intro d link hl
    simp only [sampleEnv] at hl
    split_ifs at hl
    cases hl
    rfl
  · intro d link hl
    simp only [sampleEnv] at hl
    split_ifs at hl
    cases hl
    rfl
  · intro d
    exact ResourceData.Same_Set_of_Gets _ d _ _ rfl
  · intro s
    exact Finset.sort_toFinset _ s

/-- C1 on the concrete instance: the configuration with a name, an issuer
mode, an account-link action and two subject formats builds the same model
before and after the sync step. -/
theorem build_sync_build_witness :
    buildSamlIdp (sampleEnv remoteIdp none)
        (resourceSamlIdpReadSync (sampleEnv remoteIdp none) richData
          (buildSamlIdp (sampleEnv remoteIdp none) richData)).1
      = buildSamlIdp (sampleEnv remoteIdp none) richData :=
  (build_sync_build (sampleEnv remoteIdp none) (sampleEnv_syncStable remoteIdp none)
    richData).1

end Okta
